import Mathlib

/-!
Verification of the fmu-settings resource synchronization and diffing engine.

The definitions below are a shallow embedding of the Python sources under
`src/fmu/settings/`:

* `models/_enums.py`        → `changeTypeMembers`, `filterTypeMembers`, `enumAttr`
* `models/change_info.py`   → `ChangeInfo`, `validChangeInfo`
* `models/log.py`           → `Filter`, `mkFilter`, `negIndex` (`Log.__getitem__`)
* `models/mappings.py`      → `Mappings`
* `_resources/log_manager.py`       → `addLogEntry`, `filterLog`
* `_resources/changelog_manager.py` → `logUpdateToChangelog`, `logMergeToChangelog`,
  `getLatestChangeTimestamp`, `getChangelogDiff`, `changelogMergeChanges`
* `_resources/mappings_manager.py`  → `updateStratigraphyMappings`, `updateWellMappings`,
  `getMappingsDiff`, `mappingsMergeChanges`
* `_fmu_dir.py`             → `getDirDiff`, `syncDir`, `setCacheMaxRevisions`,
  `syncRuntimeVariables`

Python runtime errors are modelled with `PyErr` and `Except`; the mutable `.fmu`
directory (the files `config.json`, `logs/changelog.json`, `mappings.json` plus the
live cache-retention counter) is modelled with `FMUState`, where `Option.none` for a
resource means the file does not exist.  Ambient process state (clock, user,
hostname) is passed explicitly as a `Ctx`.  Timestamps are integers (timezone-aware
datetimes ordered by their instant).  Definitions for repository code that is not
part of the sources (config managers, cache manager, the dotted-key helper of the
pydantic resource manager) are modelled from the specification and marked
`Modelled from the spec:` in their doc comments.
-/

namespace FmuSettings

/-- Python exception classes raised by the embedded code.  `validationError` stands
for `pydantic.ValidationError` (a `ValueError` subclass raised at model
construction), `valueError` for a plain `ValueError`. -/
inductive PyErr where
  | attributeError (name : String)
  | fileNotFoundError (msg : String)
  | indexError (msg : String)
  | validationError (msg : String)
  | valueError (msg : String)
  | notImplementedError
  deriving DecidableEq, Repr

/-- One stratigraphy identifier mapping (external `fmu.datamodels` record; only its
value identity matters to the sync engine). -/
structure StratMapping where
  source_system : String
  target_system : String
  relation_type : String
  source_id : String
  target_id : String
  deriving DecidableEq, Repr

/-- A Python value stored in a resource document: a string, an integer, `None`, a
live `StratigraphyMappings` pydantic model, an already-dumped plain object carrying
its `str()` rendering, or a nested dict. -/
inductive Value where
  | vstr (s : String)
  | vint (n : Int)
  | vnone
  | vstrat (ms : List StratMapping)
  | vdump (s : String)
  | vdict (fields : List (String × Value))

mutual

/-- Python `==` on stored values (structural equality, as pydantic models and plain
python objects compare by value). -/
def Value.beq : Value → Value → Bool
  | Value.vstr a, Value.vstr b => a == b
  | Value.vint a, Value.vint b => a == b
  | Value.vnone, Value.vnone => true
  | Value.vstrat a, Value.vstrat b => a == b
  | Value.vdump a, Value.vdump b => a == b
  | Value.vdict a, Value.vdict b => Value.fieldsBeq a b
  | _, _ => false

/-- Python `==` on the field lists of two dicts. -/
def Value.fieldsBeq : List (String × Value) → List (String × Value) → Bool
  | [], [] => true
  | (k, v) :: rest, (k2, v2) :: rest2 =>
      k == k2 && Value.beq v v2 && Value.fieldsBeq rest rest2
  | _, _ => false

end

/-- Python `==` on optional values (the missing sentinel compares equal only to
itself). -/
def Value.beqOpt : Option Value → Option Value → Bool
  | some a, some b => Value.beq a b
  | none, none => true
  | _, _ => false

/-- `models/change_info.py` `ChangeInfo`: one changelog entry.  `change_type` and
`file` are kept as raw strings so that schema validation (`validChangeInfo`) is a
separate, observable step, exactly as pydantic validates them. -/
structure ChangeInfo where
  timestamp : Int
  change_type : String
  user : String
  path : String
  change : String
  hostname : String
  file : String
  key : String
  deriving DecidableEq, Repr

/-- `models/_enums.py` `ChangeType`: member name ↦ member value.  The source enum
declares exactly `update`, `remove`, `add` and `reset`. -/
def changeTypeMembers : List (String × String) :=
  [("update", "update"), ("remove", "remove"), ("add", "add"), ("reset", "reset")]

/-- `models/_enums.py` `FilterType`: member name ↦ member value.  The source enum
declares `number = "number"`, `string = "string"` and `data = "date"`. -/
def filterTypeMembers : List (String × String) :=
  [("number", "number"), ("string", "string"), ("data", "date")]

/-- Python attribute access on an enum class: `Enum.name` yields the member value
when `name` is a declared member, and raises `AttributeError` otherwise. -/
def enumAttr (members : List (String × String)) (name : String) : Except PyErr String :=
  match members.lookup name with
  | some v => Except.ok v
  | none => Except.error (PyErr.attributeError name)

/-- Pydantic validation of a `ChangeType` field value: accepted iff it is one of the
enum member values. -/
def isChangeTypeValue (s : String) : Bool :=
  changeTypeMembers.any (fun m => m.snd == s)

/-- Pydantic validation of a `ChangeInfo` record per `models/change_info.py`:
`change_type : ChangeType` and `file : Literal["config.json"]`; the remaining fields
are unconstrained strings and the timestamp is timezone-aware by construction. -/
def validChangeInfo (e : ChangeInfo) : Bool :=
  isChangeTypeValue e.change_type && e.file == "config.json"

/-- Python `str()` of a `ChangeInfo` pydantic model (field/value rendering). -/
def changeInfoStr (e : ChangeInfo) : String :=
  "timestamp=" ++ toString e.timestamp ++ " change_type=" ++ e.change_type ++
    " user=" ++ e.user ++ " path=" ++ e.path ++ " change=" ++ e.change ++
    " hostname=" ++ e.hostname ++ " file=" ++ e.file ++ " key=" ++ e.key

/-- Message of the `pydantic.ValidationError` raised when a `ChangeInfo` fails
validation. -/
def changeInfoValidationMsg (e : ChangeInfo) : String :=
  "1 validation error for ChangeInfo: " ++ changeInfoStr e

/-- Constructing `ChangeInfo(...)`: pydantic validates at construction and raises
`ValidationError` for an invalid record. -/
def mkChangeInfo (timestamp : Int) (ctype : String) (user : String) (path : String)
    (change : String) (hostname : String) (file : String) (key : String) :
    Except PyErr ChangeInfo :=
  let e : ChangeInfo := ⟨timestamp, ctype, user, path, change, hostname, file, key⟩
  if validChangeInfo e then Except.ok e
  else Except.error (PyErr.validationError (changeInfoValidationMsg e))

/-- `models/mappings.py` `Mappings`: optional stratigraphy sub-collection and the
reserved `wells` field (`Any | None`). -/
structure Mappings where
  stratigraphy : Option (List StratMapping)
  wells : Option Value

/-- The observable state of one `.fmu` directory: the three diffable resource files
(`none` = file absent) plus the live cache-retention counter and the directory
path. -/
structure FMUState where
  path : String
  config : Option (List (String × Value))
  changelog : Option (List ChangeInfo)
  mappings : Option Mappings
  cacheMaxRevisions : Int

/-- Ambient process state read by the managers (`datetime.now(UTC)`,
`os.getenv("USER", "unknown")`, `socket.gethostname()`), passed explicitly. -/
structure Ctx where
  now : Int
  user : String
  hostname : String
  deriving DecidableEq, Repr

/-- Message of the `ValueError` raised by `LogManager.add_log_entry` when the entry
fails re-validation (`log_manager.py` lines 38-42). -/
def logEntryErrorMsg (e : ChangeInfo) : String :=
  "Invalid log entry added to \x27Log[ChangeInfo]\x27 with value \x27" ++
    changeInfoStr e ++ "\x27: \x27" ++ changeInfoValidationMsg e

/-- `log_manager.py` `LogManager.add_log_entry`: re-validate the entry; on success
load the existing log (or start an empty one when the file is absent), append, and
save; on validation failure raise `ValueError` and leave the file untouched (in
particular an absent file is not created). -/
def addLogEntry (st : FMUState) (e : ChangeInfo) : FMUState × Except PyErr Unit :=
  if validChangeInfo e then
    let log := st.changelog.getD []
    ({ st with changelog := some (log ++ [e]) }, Except.ok ())
  else
    (st, Except.error (PyErr.valueError (logEntryErrorMsg e)))

/-- Python `str()` of one dumped stratigraphy mapping (a plain dict). -/
def stratMappingDumpStr (m : StratMapping) : String :=
  "\x7b\x27source_system\x27: \x27" ++ m.source_system ++
    "\x27, \x27target_system\x27: \x27" ++ m.target_system ++
    "\x27, \x27relation_type\x27: \x27" ++ m.relation_type ++
    "\x27, \x27source_id\x27: \x27" ++ m.source_id ++
    "\x27, \x27target_id\x27: \x27" ++ m.target_id ++ "\x27\x7d"

/-- Python `str()` of `StratigraphyMappings.model_dump()` (a list of dicts). -/
def stratDumpStr (ms : List StratMapping) : String :=
  "[" ++ String.intercalate ", " (ms.map stratMappingDumpStr) ++ "]"

mutual

/-- Python default `str()` of a stored value. -/
def valueStr : Value → String
  | Value.vstr s => s
  | Value.vint n => toString n
  | Value.vnone => "None"
  | Value.vstrat ms => "root=" ++ stratDumpStr ms
  | Value.vdump s => s
  | Value.vdict fields => "\x7b" ++ valueFieldsStr fields ++ "\x7d"

/-- `str()` of the field list of a plain dict. -/
def valueFieldsStr : List (String × Value) → String
  | [] => ""
  | [f] => "\x27" ++ f.fst ++ "\x27: " ++ valueStr f.snd
  | f :: g :: rest =>
      "\x27" ++ f.fst ++ "\x27: " ++ valueStr f.snd ++ ", " ++ valueFieldsStr (g :: rest)

end

/-- `isinstance(value, BaseModel)`: only live pydantic models qualify (dumped
objects are plain lists/dicts). -/
def isBaseModel : Value → Bool
  | Value.vstrat _ => true
  | _ => false

/-- `str(value.model_dump())` for a live model. -/
def modelDumpStr : Value → String
  | Value.vstrat ms => stratDumpStr ms
  | v => valueStr v

/-- Value rendering used by `log_update_to_changelog`: canonical dict form
(`str(v.model_dump())`) for pydantic models, default `str(v)` otherwise
(`changelog_manager.py` lines 52-74). -/
def renderLogValue (v : Value) : String :=
  if isBaseModel v then modelDumpStr v else valueStr v

/-- Modelled from the spec: `PydanticResourceManager._get_dot_notation_key` lives in
`_resources/pydantic_resource_manager.py`, which is not among the sources; per §4.4
the old-value lookup walks the nested structure along the dotted key and uses the
missing sentinel (here `Option.none`) at each level. -/
def lookupDotted : List (String × Value) → List String → Option Value
  | _, [] => none
  | d, [k] => d.lookup k
  | d, k :: k' :: ks =>
    match d.lookup k with
    | some (Value.vdict inner) => lookupDotted inner (k' :: ks)
    | _ => none

/-- Python `key.split(".")` (splitting on the dot character). -/
def splitDotAux : List Char → List Char → List String
  | [], acc => [String.mk acc.reverse]
  | c :: cs, acc =>
    if c == '.' then String.mk acc.reverse :: splitDotAux cs []
    else splitDotAux cs (c :: acc)

/-- Python `key.split(".")` on a string. -/
def splitDot (s : String) : List String :=
  splitDotAux s.data []

/-- Python `"." in key` (the key names a nested field). -/
def hasDot (s : String) : Bool :=
  s.data.contains '.'

/-- `_get_dot_notation_key(resource_dict, key, default)` with the missing sentinel
rendered as `Option.none`. -/
def getDotNotationKey (d : List (String × Value)) (key : String) : Option Value :=
  lookupDotted d (splitDot key)

/-- One iteration of `ChangelogManager.log_update_to_changelog`: decide between the
`add` and `update` change kinds by looking the key up in the pre-update snapshot
with the `_MISSING_KEY` sentinel (so a stored `None` counts as present), format the
description, construct the `ChangeInfo` and append it. -/
def logUpdateEntry (ctx : Ctx) (st : FMUState) (oldDict : List (String × Value))
    (relPath : String) (key : String) (newValue : Value) :
    FMUState × Except PyErr Unit :=
  let oldValue : Option Value :=
    if hasDot key then getDotNotationKey oldDict key else oldDict.lookup key
  match oldValue with
  | some ov =>
    let changeString := "Updated field \x27" ++ key ++ "\x27. Old value: " ++
      renderLogValue ov ++ " -> New value: " ++ renderLogValue newValue
    match mkChangeInfo ctx.now "update" ctx.user st.path changeString ctx.hostname
        relPath key with
    | Except.ok entry => addLogEntry st entry
    | Except.error e => (st, Except.error e)
  | none =>
    let changeString := "Added field \x27" ++ key ++ "\x27. New value: " ++
      renderLogValue newValue
    match mkChangeInfo ctx.now "add" ctx.user st.path changeString ctx.hostname
        relPath key with
    | Except.ok entry => addLogEntry st entry
    | Except.error e => (st, Except.error e)

/-- `ChangelogManager.log_update_to_changelog`: loop over the `(key, new_value)`
pairs in order, emitting one change record each; an error stops the loop. -/
def logUpdateToChangelog (ctx : Ctx) (st : FMUState) (updates : List (String × Value))
    (oldDict : List (String × Value)) (relPath : String) :
    FMUState × Except PyErr Unit :=
  match updates with
  | [] => (st, Except.ok ())
  | (k, v) :: rest =>
    match logUpdateEntry ctx st oldDict relPath k v with
    | (st1, Except.ok _) => logUpdateToChangelog ctx st1 rest oldDict relPath
    | (st1, Except.error e) => (st1, Except.error e)

/-- `ChangelogManager.log_merge_to_changelog`: format the merged-resource summary
and append one entry whose change kind is the attribute `ChangeType.merge` —
evaluated before the record is constructed, exactly as Python evaluates the keyword
arguments of `ChangeInfo(...)`. -/
def logMergeToChangelog (ctx : Ctx) (st : FMUState) (sourcePath : String)
    (incomingPath : String) (mergedResources : List String) :
    FMUState × Except PyErr Unit :=
  let resourcesString :=
    String.intercalate ", " (mergedResources.map (fun r => "\x27" ++ r ++ "\x27"))
  let changeString := "Merged resources " ++ resourcesString ++ " from \x27" ++
    incomingPath ++ "\x27 into \x27" ++ sourcePath ++ "\x27."
  match enumAttr changeTypeMembers "merge" with
  | Except.error e => (st, Except.error e)
  | Except.ok ctype =>
    match mkChangeInfo ctx.now ctype ctx.user sourcePath changeString ctx.hostname
        resourcesString ".fmu" with
    | Except.ok entry => addLogEntry st entry
    | Except.error e => (st, Except.error e)

/-- Python list indexing as used by `Log.__getitem__` (`models/log.py`): negative
indices count from the end; out of range raises `IndexError`. -/
def negIndex (l : List ChangeInfo) (i : Int) : Except PyErr ChangeInfo :=
  let j : Int := if i < 0 then i + l.length else i
  if h : 0 ≤ j ∧ j.toNat < l.length then Except.ok (l.get ⟨j.toNat, h.2⟩)
  else Except.error (PyErr.indexError "list index out of range")

/-- `ChangelogManager._get_latest_change_timestamp`: `self.load()[-1].timestamp`. -/
def getLatestChangeTimestamp (log : List ChangeInfo) : Except PyErr Int :=
  match negIndex log (-1) with
  | Except.ok e => Except.ok e.timestamp
  | Except.error err => Except.error err

/-- `models/log.py` `Filter`: a validated filter record. -/
structure Filter where
  field_name : String
  filter_value : String
  filter_type : String
  operator : String
  deriving DecidableEq, Repr

/-- Constructing `Filter(...)`: pydantic validates `filter_type` against
`Literal["str", "number", "datetime"]` and `operator` against
`Literal[">=", "<=", "==", "!="]`. -/
def mkFilter (fieldName : String) (filterValue : String) (filterType : String)
    (op : String) : Except PyErr Filter :=
  if (filterType == "str" || filterType == "number" || filterType == "datetime") &&
      (op == ">=" || op == "<=" || op == "==" || op == "!=") then
    Except.ok ⟨fieldName, filterValue, filterType, op⟩
  else
    Except.error (PyErr.validationError "1 validation error for Filter")

/-- String projection of a `ChangeInfo` field by name (the dataframe column values
for the non-timestamp fields). -/
def entryFieldStr (e : ChangeInfo) (name : String) : String :=
  if name == "change_type" then e.change_type
  else if name == "user" then e.user
  else if name == "path" then e.path
  else if name == "change" then e.change
  else if name == "hostname" then e.hostname
  else if name == "file" then e.file
  else e.key

/-- Equality comparison of one entry against the filter value (timestamp columns
compare as instants, other columns as strings). -/
def entryMatchesEq (e : ChangeInfo) (f : Filter) : Bool :=
  if f.field_name == "timestamp" then
    match f.filter_value.toInt? with
    | some t => e.timestamp == t
    | none => false
  else entryFieldStr e f.field_name == f.filter_value

/-- `<=` comparison of one entry against the filter value. -/
def entryMatchesLe (e : ChangeInfo) (f : Filter) : Bool :=
  if f.field_name == "timestamp" then
    match f.filter_value.toInt? with
    | some t => decide (e.timestamp ≤ t)
    | none => false
  else decide (entryFieldStr e f.field_name ≤ f.filter_value)

/-- `>=` comparison of one entry against the filter value. -/
def entryMatchesGe (e : ChangeInfo) (f : Filter) : Bool :=
  if f.field_name == "timestamp" then
    match f.filter_value.toInt? with
    | some t => decide (t ≤ e.timestamp)
    | none => false
  else decide (f.filter_value ≤ entryFieldStr e f.field_name)

/-- `log_manager.py` `LogManager.filter_log`: keep the matching entries in order;
`<=`/`>=` on a `str`-typed field and unknown operators raise `ValueError`. -/
def filterLog (log : List ChangeInfo) (f : Filter) : Except PyErr (List ChangeInfo) :=
  if f.operator == "==" then Except.ok (log.filter (fun e => entryMatchesEq e f))
  else if f.operator == "!=" then Except.ok (log.filter (fun e => !entryMatchesEq e f))
  else if f.operator == "<=" then
    if f.filter_type == "str" then
      Except.error (PyErr.valueError
        ("Invalid filter operator <= applied to \x27str\x27 field " ++ f.field_name))
    else Except.ok (log.filter (fun e => entryMatchesLe e f))
  else if f.operator == ">=" then
    if f.filter_type == "str" then
      Except.error (PyErr.valueError
        ("Invalid filter operator >= applied to \x27str\x27 field " ++ f.field_name))
    else Except.ok (log.filter (fun e => entryMatchesGe e f))
  else Except.error (PyErr.valueError "Invalid filter operator applied when filterting log resource")

/-- Python `str(bool)`. -/
def pyBool (b : Bool) : String :=
  if b then "True" else "False"

/-- `ChangelogManager.get_changelog_diff`: when both changelog files exist, take the
current log's latest timestamp and filter the incoming log with
`Filter(field_name="timestamp", filter_value=str(starting_point),
filter_type=FilterType.date, operator=">")`; the keyword arguments are evaluated in
order before the filter is applied.  When either file is absent, raise
`FileNotFoundError`. -/
def getChangelogDiff (cur incoming : Option (List ChangeInfo)) :
    Except PyErr (List ChangeInfo) :=
  match cur, incoming with
  | some curLog, some incLog =>
    match getLatestChangeTimestamp curLog with
    | Except.error e => Except.error e
    | Except.ok startingPoint =>
      match enumAttr filterTypeMembers "date" with
      | Except.error e => Except.error e
      | Except.ok ftype =>
        match mkFilter "timestamp" (toString startingPoint) ftype ">" with
        | Except.error e => Except.error e
        | Except.ok f => filterLog incLog f
  | _, _ =>
    Except.error (PyErr.fileNotFoundError
      ("Changelog resources to diff must exist in both directories: " ++
        "Current changelog resource exists: " ++ pyBool cur.isSome ++
        ". Incoming changelog resource exists: " ++ pyBool incoming.isSome ++ "."))

/-- `ChangelogManager.merge_changes`: append every entry of the change list to the
current changelog, then reload and return it. -/
def changelogMergeChanges (st : FMUState) (change : List ChangeInfo)  :
    FMUState × Except PyErr (List ChangeInfo) :=
  match change with
  | [] =>
    match st.changelog with
    | some log => (st, Except.ok log)
    | none =>
      (st, Except.error (PyErr.fileNotFoundError
        "Resource file for \x27ChangelogManager\x27 not found"))
  | e :: rest =>
    match addLogEntry st e with
    | (st1, Except.ok _) => changelogMergeChanges st1 rest
    | (st1, Except.error err) => (st1, Except.error err)

/-- `Mappings.model_dump()`: the plain-dict snapshot of a mappings record (nested
models are dumped to plain objects). -/
def mappingsDump (m : Mappings) : List (String × Value) :=
  [("stratigraphy", match m.stratigraphy with
      | some ms => Value.vdump (stratDumpStr ms)
      | none => Value.vnone),
   ("wells", match m.wells with
      | some w => w
      | none => Value.vnone)]

/-- `mappings_manager.py` `MappingsManager.update_stratigraphy_mappings`: load the
current mappings (or start from an empty stratigraphy when the file is absent),
snapshot the pre-update dump, replace the whole `stratigraphy` sub-collection, save,
and only then log the field update to the changelog with `relative_path =
"mappings.json"`. -/
def updateStratigraphyMappings (ctx : Ctx) (st : FMUState)
    (strat : List StratMapping) : FMUState × Except PyErr (List StratMapping) :=
  let mappings := st.mappings.getD { stratigraphy := some [], wells := none }
  let oldDict := mappingsDump mappings
  let mappings1 := { mappings with stratigraphy := some strat }
  let st1 := { st with mappings := some mappings1 }
  match logUpdateToChangelog ctx st1 [("stratigraphy", Value.vstrat strat)] oldDict
      "mappings.json" with
  | (st2, Except.ok _) => (st2, Except.ok strat)
  | (st2, Except.error e) => (st2, Except.error e)

/-- `MappingsManager.update_well_mappings`: unconditionally
`raise NotImplementedError`. -/
def updateWellMappings (st : FMUState) : FMUState × Except PyErr Unit :=
  (st, Except.error PyErr.notImplementedError)

/-- `MappingsManager.get_mappings_diff`: when both mappings files exist, return the
entire incoming mappings record (regardless of content); otherwise raise
`FileNotFoundError`. -/
def getMappingsDiff (cur incoming : Option Mappings) : Except PyErr Mappings :=
  match cur, incoming with
  | some _, some incMappings => Except.ok incMappings
  | _, _ =>
    Except.error (PyErr.fileNotFoundError
      ("Mappings resources to diff must exist in both directories: " ++
        "Current mappings resource exists: " ++ pyBool cur.isSome ++
        ". Incoming mappings resource exists: " ++ pyBool incoming.isSome ++ "."))

/-- `MappingsManager.load` on the current state. -/
def loadMappings (st : FMUState) : FMUState × Except PyErr Mappings :=
  match st.mappings with
  | some m => (st, Except.ok m)
  | none =>
    (st, Except.error (PyErr.fileNotFoundError
      "Resource file for \x27MappingsManager\x27 not found"))

/-- `MappingsManager.merge_changes`: replace the stratigraphy sub-collection when
the change carries one, fail on a non-null `wells` value, then reload and return the
current mappings. -/
def mappingsMergeChanges (ctx : Ctx) (st : FMUState) (changes : Mappings) :
    FMUState × Except PyErr Mappings :=
  let stratStep : FMUState × Except PyErr Unit :=
    match changes.stratigraphy with
    | some strat =>
      match updateStratigraphyMappings ctx st strat with
      | (st1, Except.ok _) => (st1, Except.ok ())
      | (st1, Except.error e) => (st1, Except.error e)
    | none => (st, Except.ok ())
  match stratStep with
  | (st1, Except.error e) => (st1, Except.error e)
  | (st1, Except.ok _) =>
    match changes.wells with
    | some _ =>
      match updateWellMappings st1 with
      | (st2, Except.error e) => (st2, Except.error e)
      | (st2, Except.ok _) => loadMappings st2
    | none => loadMappings st1

/-- Modelled from the spec: the config managers
(`_resources/config_managers.py`, `_resources/pydantic_resource_manager.py`) are not
among the sources; per §3 the provenance fields (creation timestamp/author) and the
last-modified fields are diff-exempt and never considered changed during a sync. -/
def diffExemptFields : List String :=
  ["created_at", "created_by", "last_modified_at", "last_modified_by"]

/-- Modelled from the spec: `get_resource_diff` (§4.1) — when both config files
exist, compare field by field over the incoming record, skipping diff-exempt fields,
and report `(field_key, None, incoming_value)` for each differing field; when either
file is absent, fail with the missing-resource error. -/
def configResourceDiff (cur incoming : Option (List (String × Value))) :
    Except PyErr (List (String × Value)) :=
  match cur, incoming with
  | some c, some n =>
    Except.ok ((n.map Prod.fst).filterMap (fun k =>
      if diffExemptFields.contains k then none
      else if Value.beqOpt (c.lookup k) (n.lookup k) then none
      else (n.lookup k).map (fun v => (k, v))))
  | _, _ =>
    Except.error (PyErr.fileNotFoundError
      "Resource file for \x27ProjectConfigManager\x27 not found")

/-- Set a key in an association-list document, preserving insertion order. -/
def assocSet (d : List (String × Value)) (key : String) (v : Value) :
    List (String × Value) :=
  if d.any (fun f => f.fst == key) then
    d.map (fun f => if f.fst = key then (key, v) else f)
  else d ++ [(key, v)]

/-- Modelled from the spec: config `merge_changes` (§4.3 step 3) — set each listed
field to its new value and emit one changelog entry per field change via §4.4, with
`relative_path = "config.json"`. -/
def configMergeChanges (ctx : Ctx) (st : FMUState)
    (changes : List (String × Value)) :
    FMUState × Except PyErr (List (String × Value)) :=
  match st.config with
  | none =>
    (st, Except.error (PyErr.fileNotFoundError
      "Resource file for \x27ProjectConfigManager\x27 not found"))
  | some oldDoc =>
    let newDoc := changes.foldl (fun d kv => assocSet d kv.fst kv.snd) oldDoc
    let st1 := { st with config := some newDoc }
    match logUpdateToChangelog ctx st1 changes oldDoc "config.json" with
    | (st2, Except.ok _) => (st2, Except.ok newDoc)
    | (st2, Except.error e) => (st2, Except.error e)

/-- `_fmu_dir.py` `ProjectFMUDirectory._sync_runtime_variables`: reload the config
and align the live cache-retention counter with the persisted
`cache_max_revisions` field. -/
def syncRuntimeVariables (st : FMUState) : FMUState × Except PyErr Unit :=
  match st.config with
  | none =>
    (st, Except.error (PyErr.fileNotFoundError
      "Resource file for \x27ProjectConfigManager\x27 not found"))
  | some c =>
    match c.lookup "cache_max_revisions" with
    | some (Value.vint n) =>
      if st.cacheMaxRevisions == n then (st, Except.ok ())
      else ({ st with cacheMaxRevisions := n }, Except.ok ())
    | _ => (st, Except.ok ())

/-- The payload of one aggregate-diff tuple: a config field value, a whole mappings
record, or a wrapped changelog-entry sequence. -/
inductive DiffPayload where
  | val (v : Value)
  | maps (m : Mappings)
  | logs (l : List ChangeInfo)

/-- One `(field_key, old_value, new_value)` tuple of the aggregate diff (the old
value is always `None` in the aggregate report). -/
structure DiffChange where
  key : String
  oldValue : Option Value
  newValue : DiffPayload

/-- The per-resource error handling of `get_dir_diff`: `AttributeError` and
`FileNotFoundError` make the resource silently skipped; any other error
propagates. -/
def skipsInDirDiff : PyErr → Bool
  | PyErr.attributeError _ => true
  | PyErr.fileNotFoundError _ => true
  | _ => false

/-- `_fmu_dir.py` `ProjectFMUDirectory.get_dir_diff`: iterate the directory's
resources in instance-attribute order (`config`, `_changelog`, `_mappings`; the
non-diffable attributes are skipped by the match), collecting each resource's diff;
the changelog diff is wrapped as a single `"changelog"` tuple when non-empty and an
empty change list otherwise; a resource whose diff raises `AttributeError` or
`FileNotFoundError` is silently excluded. -/
def getDirDiff (cur incoming : FMUState) :
    Except PyErr (List (String × List DiffChange)) :=
  let configStep : Except PyErr (List (String × List DiffChange)) :=
    match configResourceDiff cur.config incoming.config with
    | Except.ok changes =>
      Except.ok [("config",
        changes.map (fun kv => ⟨kv.fst, none, DiffPayload.val kv.snd⟩))]
    | Except.error e => if skipsInDirDiff e then Except.ok [] else Except.error e
  match configStep with
  | Except.error e => Except.error e
  | Except.ok acc1 =>
    let changelogStep : Except PyErr (List (String × List DiffChange)) :=
      match getChangelogDiff cur.changelog incoming.changelog with
      | Except.ok diffEntries =>
        if diffEntries.length > 0 then
          Except.ok (acc1 ++
            [("_changelog", [⟨"changelog", none, DiffPayload.logs diffEntries⟩])])
        else Except.ok (acc1 ++ [("_changelog", [])])
      | Except.error e => if skipsInDirDiff e then Except.ok acc1 else Except.error e
    match changelogStep with
    | Except.error e => Except.error e
    | Except.ok acc2 =>
      match getMappingsDiff cur.mappings incoming.mappings with
      | Except.ok m =>
        Except.ok (acc2 ++ [("_mappings", [⟨"mappings", none, DiffPayload.maps m⟩])])
      | Except.error e => if skipsInDirDiff e then Except.ok acc2 else Except.error e

/-- A merged resource value in the mapping returned by `sync_dir`. -/
inductive ResourceVal where
  | changelogVal (l : List ChangeInfo)
  | configVal (c : List (String × Value))
  | mappingsVal (m : Mappings)

/-- The per-resource merge loop of `sync_dir` over the remaining (non-changelog)
diff entries: resources with an empty change list are skipped; `config` and
`_mappings` dispatch to their managers' `merge_changes` (config additionally
re-syncing the runtime variables); results are recorded in insertion order. -/
def syncResourceLoop (ctx : Ctx) (st : FMUState)
    (rest : List (String × List DiffChange))
    (updates : List (String × ResourceVal)) :
    FMUState × Except PyErr (List (String × ResourceVal)) :=
  match rest with
  | [] => (st, Except.ok updates)
  | (name, changes) :: more =>
    if changes.length == 0 then syncResourceLoop ctx st more updates
    else if name == "config" then
      let fieldChanges := changes.filterMap (fun c =>
        match c.newValue with
        | DiffPayload.val v => some (c.key, v)
        | _ => none)
      match configMergeChanges ctx st fieldChanges with
      | (st1, Except.error e) => (st1, Except.error e)
      | (st1, Except.ok newDoc) =>
        match syncRuntimeVariables st1 with
        | (st2, Except.error e) => (st2, Except.error e)
        | (st2, Except.ok _) =>
          syncResourceLoop ctx st2 more
            (updates ++ [("config", ResourceVal.configVal newDoc)])
    else if name == "_mappings" then
      match changes.head? with
      | some c =>
        match c.newValue with
        | DiffPayload.maps m =>
          match mappingsMergeChanges ctx st m with
          | (st1, Except.error e) => (st1, Except.error e)
          | (st1, Except.ok merged) =>
            syncResourceLoop ctx st1 more
              (updates ++ [("_mappings", ResourceVal.mappingsVal merged)])
        | _ => syncResourceLoop ctx st more updates
      | none => syncResourceLoop ctx st more updates
    else syncResourceLoop ctx st more updates

/-- `_fmu_dir.py` `ProjectFMUDirectory.sync_dir`: compute the aggregate diff, merge
the changelog diff first (appending every incoming entry to the current changelog),
then merge the remaining changed resources, and conclude by logging one terminal
merge entry naming the source path, the incoming path and the merged resource
names.  Returns the mapping of resource name to merged value. -/
def syncDir (ctx : Ctx) (cur incoming : FMUState) :
    FMUState × Except PyErr (List (String × ResourceVal)) :=
  match getDirDiff cur incoming with
  | Except.error e => (cur, Except.error e)
  | Except.ok changesInDir =>
    let chlStep : FMUState × Except PyErr (List (String × ResourceVal)) :=
      match changesInDir.lookup "_changelog" with
      | some (c :: _) =>
        match c.newValue with
        | DiffPayload.logs entries =>
          match changelogMergeChanges cur entries with
          | (st1, Except.ok merged) =>
            (st1, Except.ok [("_changelog", ResourceVal.changelogVal merged)])
          | (st1, Except.error e) => (st1, Except.error e)
        | _ => (cur, Except.ok [])
      | _ => (cur, Except.ok [])
    match chlStep with
    | (st1, Except.error e) => (st1, Except.error e)
    | (st1, Except.ok updates0) =>
      let remaining := changesInDir.filter (fun rc => rc.fst != "_changelog")
      match syncResourceLoop ctx st1 remaining updates0 with
      | (st2, Except.error e) => (st2, Except.error e)
      | (st2, Except.ok updates) =>
        match logMergeToChangelog ctx st2 cur.path incoming.path
            (updates.map Prod.fst) with
        | (st3, Except.ok _) => (st3, Except.ok updates)
        | (st3, Except.error e) => (st3, Except.error e)

/-- Modelled from the spec: `CacheManager` (`_resources/cache_manager.py`) is not
among the sources; its `MIN_REVISIONS` constant is 5 per the
`cache_max_revisions` setter docstring ("Minimum value is 5. Values below 5 are set
to 5.") and the test asserting a default retention of 5. -/
def cacheManagerMinRevisions : Int := 5

/-- Modelled from the spec: `config.set` (config managers, not among the sources)
stores the value under the key in the persisted config record and fails with the
missing-resource error when the config file is absent. -/
def setConfigValue (st : FMUState) (key : String) (v : Value) :
    FMUState × Except PyErr Unit :=
  match st.config with
  | none =>
    (st, Except.error (PyErr.fileNotFoundError
      "Resource file for \x27ProjectConfigManager\x27 not found"))
  | some c => ({ st with config := some (assocSet c key v) }, Except.ok ())

/-- `_fmu_dir.py` `FMUDirectoryBase.cache_max_revisions` setter: clamp the value to
at least `CacheManager.MIN_REVISIONS`, store the clamped value in the live cache
manager, then persist it under the `cache_max_revisions` config key. -/
def setCacheMaxRevisions (st : FMUState) (value : Int) :
    FMUState × Except PyErr Unit :=
  let clampedValue := max cacheManagerMinRevisions value
  let st1 := { st with cacheMaxRevisions := clampedValue }
  setConfigValue st1 "cache_max_revisions" (Value.vint clampedValue)

/-- `_fmu_dir.py` `FMUDirectoryBase.cache_max_revisions` getter: the live cache
manager's retention limit. -/
def cacheMaxRevisionsProp (st : FMUState) : Int :=
  st.cacheMaxRevisions

/-- Whether a Python call outcome is an uncaught exception. -/
def exceptIsError {α : Type} : Except PyErr α → Bool
  | Except.error _ => true
  | Except.ok _ => false

/-- Whether a Python call outcome is an uncaught `pydantic.ValidationError`. -/
def isValidationError {α : Type} : Except PyErr α → Bool
  | Except.error (PyErr.validationError _) => true
  | _ => false

/-- A concrete, schema-valid changelog entry. -/
def exEntry : ChangeInfo :=
  ⟨100, "add", "user", "/p/.fmu", "some change", "host", "config.json", "k"⟩

/-- A concrete entry whose change kind fails schema validation (mirroring the test
that sets `change_type = "invalid change_type"`). -/
def exInvalidEntry : ChangeInfo :=
  ⟨100, "invalid change_type", "user", "/p/.fmu", "some change", "host",
    "config.json", "k"⟩

/-- A concrete ambient context. -/
def exCtx : Ctx := ⟨200, "user", "host"⟩

/-- A concrete directory state in which all three diffable resource files exist. -/
def exDir : FMUState :=
  ⟨"/cur/.fmu", some [("version", Value.vstr "1.0")], some [exEntry],
    some ⟨none, none⟩, 5⟩

mutual

/-- Python `==` on values is reflexive. -/
theorem Value.beq_self : ∀ v : Value, Value.beq v v = true
  | Value.vstr s => by simp [Value.beq]
  | Value.vint n => by simp [Value.beq]
  | Value.vnone => by simp [Value.beq]
  | Value.vstrat ms => by simp [Value.beq]
  | Value.vdump s => by simp [Value.beq]
  | Value.vdict fields => by simp [Value.beq, Value.fieldsBeq_self fields]

/-- Python `==` on dict field lists is reflexive. -/
theorem Value.fieldsBeq_self : ∀ fs : List (String × Value), Value.fieldsBeq fs fs = true
  | [] => rfl
  | (k, v) :: rest => by
      simp [Value.fieldsBeq, Value.beq_self v, Value.fieldsBeq_self rest]

end

/-- Python `==` on optional values is reflexive. -/
theorem Value.beqOpt_self : ∀ o : Option Value, Value.beqOpt o o = true
  | some v => Value.beq_self v
  | none => rfl

/-- The config diff of a document against itself is empty. -/
theorem configResourceDiff_self (c : List (String × Value)) :
    configResourceDiff (some c) (some c) = Except.ok [] := by
  simp only [configResourceDiff]
  rw [Except.ok.injEq, List.filterMap_eq_nil_iff]
  intro k _
  by_cases h : diffExemptFields.contains k <;> simp [h, Value.beqOpt_self]

/-- On a non-empty changelog, `load()[-1].timestamp` succeeds. -/
theorem getLatestChangeTimestamp_cons (e : ChangeInfo) (l : List ChangeInfo) :
    ∃ t, getLatestChangeTimestamp (e :: l) = Except.ok t := by
  unfold getLatestChangeTimestamp negIndex
  have hneg : (-1 : Int) < 0 := by decide
  simp only [hneg, if_true]
  have hc : (0 : Int) ≤ -1 + ((e :: l).length : Int) ∧
      ((-1 : Int) + ((e :: l).length : Int)).toNat < (e :: l).length := by
    simp only [List.length_cons]
    omega
  rw [dif_pos hc]
  exact ⟨_, rfl⟩

/-- With a non-empty current changelog, the changelog diff always fails on the
attribute access `FilterType.date` (the enum member is spelled `data`). -/
theorem getChangelogDiff_cons (e : ChangeInfo) (l incoming : List ChangeInfo) :
    getChangelogDiff (some (e :: l)) (some incoming) =
      Except.error (PyErr.attributeError "date") := by
  obtain ⟨t, ht⟩ := getLatestChangeTimestamp_cons e l
  simp only [getChangelogDiff]
  rw [ht]
  rfl

/-- Looking a key up after `assocSet` over the keyed-replacement branch yields the
new value. -/
theorem lookup_map_set (k : String) (v : Value) :
    ∀ d : List (String × Value), d.any (fun f => f.fst == k) = true →
      (d.map (fun f => if f.fst = k then (k, v) else f)).lookup k = some v := by
  intro d
  induction d with
  | nil => intro h; simp at h
  | cons f fs ih =>
    intro h
    by_cases hf : f.fst = k
    · rw [List.map_cons, if_pos hf]
      simp [List.lookup]
    · have hkf : (k == f.fst) = false := beq_eq_false_iff_ne.mpr (fun hh => hf hh.symm)
      have hfk : (f.fst == k) = false := beq_eq_false_iff_ne.mpr hf
      simp only [List.any_cons, hfk, Bool.false_or] at h
      rw [List.map_cons, if_neg hf]
      simp [List.lookup, hkf, ih h]

/-- Looking a key up after `assocSet` over the appending branch yields the new
value. -/
theorem lookup_append_set (k : String) (v : Value) :
    ∀ d : List (String × Value), d.any (fun f => f.fst == k) = false →
      (d ++ [(k, v)]).lookup k = some v := by
  intro d
  induction d with
  | nil => intro _; simp [List.lookup]
  | cons f fs ih =>
    intro h
    simp only [List.any_cons, Bool.or_eq_false_iff] at h
    have hkf : (k == f.fst) = false :=
      beq_eq_false_iff_ne.mpr (fun hh => (beq_eq_false_iff_ne.mp h.1) hh.symm)
    simp [List.lookup, hkf, ih h.2]

/-- Looking a key up after `assocSet` yields the value just stored. -/
theorem lookup_assocSet (d : List (String × Value)) (k : String) (v : Value) :
    (assocSet d k v).lookup k = some v := by
  unfold assocSet
  by_cases h : d.any (fun f => f.fst == k)
  · simp only [h, if_true]
    exact lookup_map_set k v d h
  · have h2 : d.any (fun f => f.fst == k) = false := by
      simp only [Bool.not_eq_true] at h
      exact h
    simp only [h2, Bool.false_eq_true, if_false]
    exact lookup_append_set k v d h2

/-- Claim C1: after all per-resource merges, `sync_dir` is supposed to append
exactly one terminal changelog entry of change kind `merge` naming the source path,
the incoming path and the updated resource names.  The code cannot do this:
`ChangeType` (`models/_enums.py`) has no `merge` member, so
`log_merge_to_changelog` raises `AttributeError` on `ChangeType.merge` for every
input, leaving the changelog untouched and appending no entry at all. -/
theorem sync_merge_entry_blocked_by_missing_merge_member :
    (∀ (ctx : Ctx) (st : FMUState) (sourcePath incomingPath : String)
        (mergedResources : List String),
      logMergeToChangelog ctx st sourcePath incomingPath mergedResources =
        (st, Except.error (PyErr.attributeError "merge")))
    ∧ changeTypeMembers.lookup "merge" = none :=
  ⟨fun _ _ _ _ _ => rfl, rfl⟩

/-- Claim C2 (counterexample): syncing a directory whose config, changelog and
mappings files all exist with an exact structural copy of itself does not return an
empty update mapping — at the concrete state `exDir` the call raises
`AttributeError` (`ChangeType.merge`) instead of returning. -/
theorem sync_exact_copy_counterexample :
    syncDir exCtx exDir exDir = (exDir, Except.error (PyErr.attributeError "merge"))
    ∧ (syncDir exCtx exDir exDir).snd ≠ Except.ok [] := by
  have h1 : syncDir exCtx exDir exDir =
      (exDir, Except.error (PyErr.attributeError "merge")) := rfl
  refine ⟨h1, ?_⟩
  rw [h1]
  exact fun h => Except.noConfusion h

/-- Claim C2 (amended): for a directory whose resources all exist (changelog
non-empty), diffing it against an exact structural copy yields an empty config
change list, silently drops the changelog (its diff raises `AttributeError`), and
always reports the whole mappings record as changed (the coarse mappings diff);
`sync_dir` on the copy then raises an error instead of returning an empty update
mapping (the mappings re-merge fails changelog validation when stratigraphy is
non-null, the wells branch raises `NotImplementedError`, and otherwise the terminal
merge logging fails on the missing `merge` change kind). -/
theorem sync_exact_copy_not_noop (ctx : Ctx) (p : String)
    (cfg : List (String × Value)) (e : ChangeInfo) (l : List ChangeInfo)
    (m : Mappings) (cmr : Int) :
    getDirDiff ⟨p, some cfg, some (e :: l), some m, cmr⟩
        ⟨p, some cfg, some (e :: l), some m, cmr⟩ =
      Except.ok [("config", []),
        ("_mappings", [⟨"mappings", none, DiffPayload.maps m⟩])]
    ∧ exceptIsError (syncDir ctx ⟨p, some cfg, some (e :: l), some m, cmr⟩
        ⟨p, some cfg, some (e :: l), some m, cmr⟩).snd = true := by
  have hdiff : getDirDiff ⟨p, some cfg, some (e :: l), some m, cmr⟩
      ⟨p, some cfg, some (e :: l), some m, cmr⟩ =
      Except.ok [("config", []),
        ("_mappings", [⟨"mappings", none, DiffPayload.maps m⟩])] := by
    simp only [getDirDiff]
    rw [configResourceDiff_self, getChangelogDiff_cons]
    rfl
  refine ⟨hdiff, ?_⟩
  simp only [syncDir]
  rw [hdiff]
  rcases m with ⟨strat, wells⟩
  cases strat with
  | some s => rfl
  | none =>
    cases wells with
    | some w => rfl
    | none => rfl

/-- Claim C3: `get_changelog_diff` is supposed to return exactly the incoming
entries with timestamp strictly greater than the current changelog's last
timestamp, in order.  Instead, for every pair of existing changelogs with a
non-empty current side it raises `AttributeError`: `FilterType` has no `date`
member (it is spelled `data`); moreover the `Filter` model would reject the
operator `">"` that the diff passes, so no strictly-greater filtering is
reachable. -/
theorem changelog_diff_crashes_on_date_attribute :
    (∀ (e : ChangeInfo) (l incoming : List ChangeInfo),
      getChangelogDiff (some (e :: l)) (some incoming) =
        Except.error (PyErr.attributeError "date"))
    ∧ (∀ s : String, mkFilter "timestamp" s "date" ">" =
        Except.error (PyErr.validationError "1 validation error for Filter")) :=
  ⟨fun e l incoming => getChangelogDiff_cons e l incoming, fun _ => rfl⟩

/-- Claim C4 (counterexample): with an existing but empty current changelog and a
one-entry incoming changelog, the diff does not return the incoming entries — it
raises `IndexError` from `load()[-1]` on the empty entry list. -/
theorem changelog_diff_empty_current_counterexample :
    getChangelogDiff (some []) (some [exEntry]) =
      Except.error (PyErr.indexError "list index out of range")
    ∧ getChangelogDiff (some []) (some [exEntry]) ≠ Except.ok [exEntry] := by
  have h1 : getChangelogDiff (some []) (some [exEntry]) =
      Except.error (PyErr.indexError "list index out of range") := rfl
  exact ⟨h1, fun h => Except.noConfusion (h1.symm.trans h)⟩

/-- Claim C4 (amended): when the current changelog file exists but contains zero
entries, `get_changelog_diff` crashes: `_get_latest_change_timestamp` indexes the
last element of the empty entry list and raises `IndexError`; no minimum-timestamp
sentinel exists and no incoming entries are returned. -/
theorem changelog_diff_empty_current_raises_index_error
    (incoming : List ChangeInfo) :
    getChangelogDiff (some []) (some incoming) =
      Except.error (PyErr.indexError "list index out of range") := rfl

/-- Claim C5: each `(key, new_value)` pair of a field update is supposed to append
exactly one change record — kind `add` with description
`Added field '{key}'. New value: {new}` when the key is absent from the pre-update
snapshot (absence decided by a sentinel distinct from `None`), otherwise kind
`update` with description `Updated field '{key}'. Old value: {old} -> New value:
{new}`, rendering models via their dumped dict form.  The formats hold on the
config path, but for a mappings update (`relative_path = "mappings.json"`) the
record fails `ChangeInfo` validation (`file` is typed `Literal["config.json"]`), so
the call raises and appends nothing. -/
theorem field_update_logging_descriptions_and_mappings_rejection :
    (∀ (ctx : Ctx) (st : FMUState) (ms : List StratMapping)
        (oldDict : List (String × Value)),
      (logUpdateToChangelog ctx st [("stratigraphy", Value.vstrat ms)] oldDict
          "mappings.json").fst = st
      ∧ isValidationError (logUpdateToChangelog ctx st
          [("stratigraphy", Value.vstrat ms)] oldDict "mappings.json").snd = true)
    ∧ (∀ (ctx : Ctx) (st : FMUState) (v : Value),
      logUpdateToChangelog ctx st [("version", v)] [] "config.json" =
        ({ st with changelog := some (st.changelog.getD [] ++
            [⟨ctx.now, "add", ctx.user, st.path,
              "Added field \x27version\x27. New value: " ++ renderLogValue v,
              ctx.hostname, "config.json", "version"⟩]) }, Except.ok ()))
    ∧ (∀ (ctx : Ctx) (st : FMUState) (v : Value),
      logUpdateToChangelog ctx st [("version", v)]
          [("version", Value.vstr "1.0")] "config.json" =
        ({ st with changelog := some (st.changelog.getD [] ++
            [⟨ctx.now, "update", ctx.user, st.path,
              "Updated field \x27version\x27. Old value: 1.0 -> New value: " ++
                renderLogValue v,
              ctx.hostname, "config.json", "version"⟩]) }, Except.ok ())) := by
  refine ⟨fun ctx st ms oldDict => ?_, fun ctx st v => rfl, fun ctx st v => rfl⟩
  rcases h : oldDict.lookup "stratigraphy" with _ | ov
  · constructor
    · simp [logUpdateToChangelog, logUpdateEntry, h, hasDot, mkChangeInfo,
        validChangeInfo, isChangeTypeValue, changeTypeMembers]
    · simp [logUpdateToChangelog, logUpdateEntry, h, hasDot, mkChangeInfo,
        validChangeInfo, isChangeTypeValue, changeTypeMembers, isValidationError]
  · constructor
    · simp [logUpdateToChangelog, logUpdateEntry, h, hasDot, mkChangeInfo,
        validChangeInfo, isChangeTypeValue, changeTypeMembers]
    · simp [logUpdateToChangelog, logUpdateEntry, h, hasDot, mkChangeInfo,
        validChangeInfo, isChangeTypeValue, changeTypeMembers, isValidationError]

/-- Claim C6: merging an incoming `Mappings` change with `stratigraphy = [m1]` into
a current mappings resource holding `stratigraphy = [m0]` makes the stored
stratigraphy sub-collection exactly `[m1]` — a full replace saved before the
changelog logging runs — never the concatenation `[m0, m1]`; the stored `wells`
field is untouched. -/
theorem mappings_merge_full_replacement (ctx : Ctx) (p : String)
    (cfg : Option (List (String × Value))) (chl : Option (List ChangeInfo))
    (w : Option Value) (cmr : Int) (m0 m1 : StratMapping) :
    ((mappingsMergeChanges ctx ⟨p, cfg, chl, some ⟨some [m0], w⟩, cmr⟩
        ⟨some [m1], none⟩).fst).mappings = some ⟨some [m1], w⟩ := rfl

/-- Claim C7: a `Mappings` change with non-null `wells` is supposed to make the
merge raise `NotImplementedError` and abort the whole sync.  This holds when the
change's stratigraphy is null — also through `sync_dir`, which does not catch the
error — but when the change also carries a non-null stratigraphy the merge instead
raises a `pydantic.ValidationError` from the stratigraphy update's changelog entry
(`file = "mappings.json"` rejected by `Literal["config.json"]`) before the wells
check is reached. -/
theorem wells_merge_errors_and_aborts_sync :
    (∀ (ctx : Ctx) (p : String) (cfg : Option (List (String × Value)))
        (chl : Option (List ChangeInfo)) (mcur : Option (List StratMapping))
        (w : Option Value) (cmr : Int) (m1 : StratMapping) (wv : Value),
      isValidationError (mappingsMergeChanges ctx ⟨p, cfg, chl, some ⟨mcur, w⟩, cmr⟩
        ⟨some [m1], some wv⟩).snd = true)
    ∧ (∀ (ctx : Ctx) (p : String) (cfg : Option (List (String × Value)))
        (chl : Option (List ChangeInfo)) (mm : Mappings) (cmr : Int) (wv : Value),
      mappingsMergeChanges ctx ⟨p, cfg, chl, some mm, cmr⟩ ⟨none, some wv⟩ =
        (⟨p, cfg, chl, some mm, cmr⟩, Except.error PyErr.notImplementedError))
    ∧ (∀ (ctx : Ctx) (p p2 : String) (cfg : List (String × Value)) (mcur : Mappings)
        (cmr cmr2 : Int) (wv : Value),
      (syncDir ctx ⟨p, some cfg, none, some mcur, cmr⟩
          ⟨p2, some cfg, none, some ⟨none, some wv⟩, cmr2⟩).snd =
        Except.error PyErr.notImplementedError) := by
  refine ⟨fun _ _ _ _ _ _ _ _ _ => rfl, fun _ _ _ _ _ _ _ => rfl,
    fun ctx p p2 cfg mcur cmr cmr2 wv => ?_⟩
  have hdiff : getDirDiff ⟨p, some cfg, none, some mcur, cmr⟩
      ⟨p2, some cfg, none, some ⟨none, some wv⟩, cmr2⟩ =
      Except.ok [("config", []),
        ("_mappings", [⟨"mappings", none, DiffPayload.maps ⟨none, some wv⟩⟩])] := by
    simp only [getDirDiff]
    rw [configResourceDiff_self]
    rfl
  simp only [syncDir]
  rw [hdiff]
  rfl

/-- Claim C8: when a per-resource diff raises a missing-resource error, the
resource is silently excluded from `get_dir_diff` with no error — deleting the
incoming config file yields a diff with no `config` key — but `sync_dir` does not
return that mapping without error: its unconditional terminal merge logging raises
`AttributeError` on the missing `ChangeType.merge` member. -/
theorem missing_config_skipped_but_sync_raises (ctx : Ctx) (p p2 : String)
    (cfg : List (String × Value)) (cmr cmr2 : Int) :
    getDirDiff ⟨p, some cfg, none, none, cmr⟩ ⟨p2, none, none, none, cmr2⟩ =
        Except.ok []
    ∧ syncDir ctx ⟨p, some cfg, none, none, cmr⟩ ⟨p2, none, none, none, cmr2⟩ =
        (⟨p, some cfg, none, none, cmr⟩,
          Except.error (PyErr.attributeError "merge")) :=
  ⟨rfl, rfl⟩

/-- Claim C9: appending a log entry that fails schema validation raises a
`ValueError` whose message names the log model class (`Log[ChangeInfo]`) and the
rejected entry, and the changelog state is left exactly as it was: no entry is
appended, and an absent changelog file is not created. -/
theorem invalid_log_entry_rejected_without_mutation (st : FMUState)
    (e : ChangeInfo) (h : validChangeInfo e = false) :
    addLogEntry st e = (st, Except.error (PyErr.valueError (logEntryErrorMsg e))) := by
  simp only [addLogEntry, h]
  rfl

/-- Witness for claim C9 at the concrete invalid entry `exInvalidEntry` and the
concrete state `exDir`. -/
theorem invalid_log_entry_rejected_without_mutation_witness :
    validChangeInfo exInvalidEntry = false
    ∧ addLogEntry exDir exInvalidEntry =
        (exDir, Except.error (PyErr.valueError (logEntryErrorMsg exInvalidEntry))) :=
  ⟨rfl, invalid_log_entry_rejected_without_mutation exDir exInvalidEntry rfl⟩

/-- Claim C10: setting the `cache_max_revisions` property stores `max(5, v)` both
in the live cache manager and under the persisted `cache_max_revisions` config
field, so the retention limit observable through the property is never below 5
after a set. -/
theorem cache_max_revisions_clamped_to_min_five (p : String)
    (c : List (String × Value)) (chl : Option (List ChangeInfo))
    (mp : Option Mappings) (cmr v : Int) :
    (setCacheMaxRevisions ⟨p, some c, chl, mp, cmr⟩ v).fst.cacheMaxRevisions = max 5 v
    ∧ ((setCacheMaxRevisions ⟨p, some c, chl, mp, cmr⟩ v).fst.config.getD []).lookup
        "cache_max_revisions" = some (Value.vint (max 5 v))
    ∧ (setCacheMaxRevisions ⟨p, some c, chl, mp, cmr⟩ v).snd = Except.ok ()
    ∧ 5 ≤ cacheMaxRevisionsProp (setCacheMaxRevisions ⟨p, some c, chl, mp, cmr⟩ v).fst := by
  refine ⟨rfl, ?_, rfl, ?_⟩
  · show (assocSet c "cache_max_revisions"
        (Value.vint (max cacheManagerMinRevisions v))).lookup "cache_max_revisions" =
      some (Value.vint (max 5 v))
    exact lookup_assocSet c "cache_max_revisions" (Value.vint (max 5 v))
  · show (5 : Int) ≤ max 5 v
    exact le_max_left 5 v

end FmuSettings
